import Mathlib

/-!
Verification of the Rise-Tide automated water cycle controller
(`src/rise-tide/main/main.ino`).

The source file contains two sketch variants sharing the same overall
design:
* the "Enhanced UX/UI" (v2.0 UI) variant, modelled in namespace `Ui`
  (settings split into hours/minutes, five menu pages);
* the "Fast Scroll" variant, modelled in namespace `Fs`
  (a single duration-in-minutes setting, four menu pages).

Machine integers of the sketch (`int`, `unsigned long`) are modelled as
`Int` for settings/counters and `Nat` for millisecond timestamps; the
digital pin levels `HIGH`/`LOW` are modelled as the booleans below, and a
relay is recorded by its logical energized state (`true` = ON, which the
hardware drives with a LOW pin level).
-/

/-- Digital pin level HIGH (button released under INPUT_PULLUP). -/
def PIN_HIGH : Bool := true

/-- Digital pin level LOW (button pressed under INPUT_PULLUP). -/
def PIN_LOW : Bool := false

/-- The four states of the cycle state machine (shared by both variants). -/
inductive SystemState : Type
  | STATE_FILLING
  | STATE_HOLD_HIGH
  | STATE_DRAINING
  | STATE_HOLD_LOW
deriving DecidableEq, Repr

/-- What the idle-menu display routine renders: the terminal "Done!"
view, or the header/value of the selected settings page. -/
inductive View : Type
  | finishedView
  | settingsPage (page : Nat)
deriving DecidableEq, Repr

/-- `millis() - btnPressStartTime > LONG_PRESS_DELAY` threshold (ms). -/
def LONG_PRESS_DELAY : Nat := 500

/-- `millis() - lastRepeatTime > REPEAT_RATE` threshold (ms). -/
def REPEAT_RATE : Nat := 100

/-- One loop iteration's external inputs: the raw levels read from the
four buttons (`PIN_LOW` = pressed), the current `millis()` clock, and the
distance returned by `getDistance()`. -/
structure Inputs : Type where
  rMenu : Bool
  rUp : Bool
  rDown : Bool
  rStart : Bool
  now : Nat
  distance : Int
deriving Repr

namespace Ui

/-- Settings of the v2.0 UI variant (`setHours` .. `setMaxCycles`). -/
structure Settings : Type where
  setHours : Int
  setMinutes : Int
  setHighDist : Int
  setLowDist : Int
  setMaxCycles : Int
deriving DecidableEq, Repr

/-- Compiled-in defaults of the v2.0 UI variant. -/
def defaults : Settings := ⟨1, 1, 10, 50, 1⟩

/-- `adjustSetting(direction)` of the v2.0 UI variant: mutates the field
selected by `menuPage` (0 hours, 1 minutes, 2 high level, 3 low level,
4 cycles) and re-applies that field's own clamp. -/
def adjustSetting (menuPage : Nat) (direction : Int) (s : Settings) : Settings :=
  match menuPage with
  | 0 =>
    let h := s.setHours + direction
    let h := if h < 0 then 0 else h
    let h := if h > 48 then 48 else h
    { s with setHours := h }
  | 1 =>
    let m := s.setMinutes + direction
    let m := if m < 0 then 59 else if m > 59 then 0 else m
    { s with setMinutes := m }
  | 2 =>
    let d := s.setHighDist + direction
    { s with setHighDist := if d < 2 then 2 else d }
  | 3 =>
    let d := s.setLowDist + direction
    { s with setLowDist := if d < s.setHighDist + 5 then s.setHighDist + 5 else d }
  | 4 =>
    let c := s.setMaxCycles + direction
    { s with setMaxCycles := if c < 1 then 1 else c }
  | _ => s

end Ui

namespace Fs

/-- Settings of the Fast Scroll variant (`setDurationMins` .. `setMaxCycles`). -/
structure Settings : Type where
  setDurationMins : Int
  setHighDist : Int
  setLowDist : Int
  setMaxCycles : Int
deriving DecidableEq, Repr

/-- Compiled-in defaults of the Fast Scroll variant. -/
def defaults : Settings := ⟨360, 10, 50, 1⟩

/-- `adjustSetting(direction)` of the Fast Scroll variant: mutates the
field selected by `menuPage` (0 duration, 1 high level, 2 low level,
3 cycles) and re-applies that field's own clamp. -/
def adjustSetting (menuPage : Nat) (direction : Int) (s : Settings) : Settings :=
  match menuPage with
  | 0 =>
    let d := s.setDurationMins + direction
    { s with setDurationMins := if d < 1 then 1 else d }
  | 1 =>
    let d := s.setHighDist + direction
    { s with setHighDist := if d < 2 then 2 else d }
  | 2 =>
    let d := s.setLowDist + direction
    { s with setLowDist := if d < s.setHighDist + 5 then s.setHighDist + 5 else d }
  | 3 =>
    let c := s.setMaxCycles + direction
    { s with setMaxCycles := if c < 1 then 1 else c }
  | _ => s

end Fs

namespace Ui

/-- `MAX_PAGES` of the v2.0 UI variant (pages 0..4). -/
def MAX_PAGES : Nat := 4

/-- The complete mutable state of the v2.0 UI sketch: the settings, the
system flags and cycle bookkeeping, the state machine's phase and phase
start time, the logical relay commands (`true` = energized), the stored
previous button levels, and the fast-scroll timestamps. -/
structure Sys : Type where
  settings : Settings
  isRunning : Bool
  isFinished : Bool
  completedCycles : Int
  menuPage : Nat
  currentState : SystemState
  stateStartTime : Nat
  currentDistance : Int
  relayFill : Bool
  relayDrain : Bool
  lastBtnMenu : Bool
  lastBtnStart : Bool
  lastBtnUp : Bool
  lastBtnDown : Bool
  btnPressStartTime : Nat
  lastRepeatTime : Nat
deriving DecidableEq, Repr

/-- The start branch of the START/STOP edge handler. -/
def startSystem (now : Nat) (s : Sys) : Sys :=
  { s with isRunning := true, isFinished := false, completedCycles := 0,
           currentState := .STATE_FILLING, stateStartTime := now }

/-- `stopSystem`: clears `isRunning` and forces both relays OFF. -/
def stopSystem (s : Sys) : Sys :=
  { s with isRunning := false, relayFill := false, relayDrain := false }

/-- Section 1 of `handleButtons`: the START/STOP press-edge toggle,
followed by the unconditional `lastBtnStart` update. -/
def handleStartStop (i : Inputs) (s : Sys) : Sys :=
  let s :=
    if i.rStart = PIN_LOW ∧ s.lastBtnStart = PIN_HIGH then
      if s.isRunning = false then startSystem i.now s else stopSystem s
    else s
  { s with lastBtnStart := i.rStart }

/-- Section 2 of `handleButtons`: the MENU press-edge page cycling,
followed by the unconditional `lastBtnMenu` update. -/
def handleMenu (i : Inputs) (s : Sys) : Sys :=
  let s :=
    if i.rMenu = PIN_LOW ∧ s.lastBtnMenu = PIN_HIGH then
      let p := s.menuPage + 1
      { s with menuPage := if p > MAX_PAGES then 0 else p }
    else s
  { s with lastBtnMenu := i.rMenu }

/-- Section 3 of `handleButtons`: the UP button with fast scroll,
followed by the unconditional `lastBtnUp` update. -/
def handleUp (i : Inputs) (s : Sys) : Sys :=
  let s :=
    if i.rUp = PIN_LOW then
      if s.lastBtnUp = PIN_HIGH then
        { s with settings := adjustSetting s.menuPage 1 s.settings,
                 btnPressStartTime := i.now, lastRepeatTime := i.now }
      else if i.now - s.btnPressStartTime > LONG_PRESS_DELAY ∧
              i.now - s.lastRepeatTime > REPEAT_RATE then
        { s with settings := adjustSetting s.menuPage 1 s.settings,
                 lastRepeatTime := i.now }
      else s
    else s
  { s with lastBtnUp := i.rUp }

/-- Section 4 of `handleButtons`: the DOWN button with fast scroll,
followed by the unconditional `lastBtnDown` update. -/
def handleDown (i : Inputs) (s : Sys) : Sys :=
  let s :=
    if i.rDown = PIN_LOW then
      if s.lastBtnDown = PIN_HIGH then
        { s with settings := adjustSetting s.menuPage (-1) s.settings,
                 btnPressStartTime := i.now, lastRepeatTime := i.now }
      else if i.now - s.btnPressStartTime > LONG_PRESS_DELAY ∧
              i.now - s.lastRepeatTime > REPEAT_RATE then
        { s with settings := adjustSetting s.menuPage (-1) s.settings,
                 lastRepeatTime := i.now }
      else s
    else s
  { s with lastBtnDown := i.rDown }

/-- `handleButtons`: start/stop first; if the system is (now) running the
function returns early, otherwise the menu and the two adjustment
buttons are processed in order. -/
def handleButtons (i : Inputs) (s : Sys) : Sys :=
  let s := handleStartStop i s
  if s.isRunning then s
  else handleDown i (handleUp i (handleMenu i s))

/-- Total hold duration in milliseconds,
`setHours * 3600000 + setMinutes * 60000`. -/
def durationMillis (s : Settings) : Int :=
  s.setHours * 3600000 + s.setMinutes * 60000

/-- `runCycleLogic` of the v2.0 UI variant: reads the distance, computes
elapsed time in the current phase, drives the relays and advances the
state machine.  In this variant only the timer-driven transitions
(`HOLD_HIGH → DRAINING` and `HOLD_LOW → FILLING`) write
`stateStartTime`. -/
def runCycleLogic (i : Inputs) (s : Sys) : Sys :=
  let s := { s with currentDistance := i.distance }
  let timeElapsed : Nat := i.now - s.stateStartTime
  match s.currentState with
  | .STATE_FILLING =>
    let s := { s with relayFill := true, relayDrain := false }
    if 0 < s.currentDistance ∧ s.currentDistance ≤ s.settings.setHighDist then
      { s with relayFill := false, currentState := .STATE_HOLD_HIGH }
    else s
  | .STATE_HOLD_HIGH =>
    let s := { s with relayFill := false, relayDrain := false }
    if (timeElapsed : Int) ≥ durationMillis s.settings then
      { s with currentState := .STATE_DRAINING, stateStartTime := i.now }
    else s
  | .STATE_DRAINING =>
    let s := { s with relayFill := false, relayDrain := true }
    if s.currentDistance ≥ s.settings.setLowDist then
      { s with relayDrain := false, currentState := .STATE_HOLD_LOW }
    else s
  | .STATE_HOLD_LOW =>
    let s := { s with relayFill := false, relayDrain := false }
    if (timeElapsed : Int) ≥ durationMillis s.settings then
      let s := { s with completedCycles := s.completedCycles + 1 }
      if s.completedCycles ≥ s.settings.setMaxCycles then
        { stopSystem s with isFinished := true }
      else
        { s with currentState := .STATE_FILLING, stateStartTime := i.now }
    else s

/-- `displayMenu` reduced to which view it renders: the finished view
takes priority over every settings page. -/
def displayMenu (s : Sys) : View :=
  if s.isFinished then .finishedView else .settingsPage s.menuPage

/-- One iteration of `loop()`: buttons, then either the cycle logic
(while running) or the idle menu (which does not mutate state). -/
def loopStep (i : Inputs) (s : Sys) : Sys :=
  let s := handleButtons i s
  if s.isRunning then runCycleLogic i s else s

/-- The state right after `setup()`: defaults loaded, idle, relays OFF,
all stored button levels HIGH (released). -/
def initialSys : Sys :=
  { settings := defaults, isRunning := false, isFinished := false,
    completedCycles := 0, menuPage := 0, currentState := .STATE_FILLING,
    stateStartTime := 0, currentDistance := 0,
    relayFill := false, relayDrain := false,
    lastBtnMenu := PIN_HIGH, lastBtnStart := PIN_HIGH,
    lastBtnUp := PIN_HIGH, lastBtnDown := PIN_HIGH,
    btnPressStartTime := 0, lastRepeatTime := 0 }

/-- Run a list of loop iterations from a state. -/
def runLoop (l : List Inputs) (s : Sys) : Sys :=
  l.foldl (fun s i => loopStep i s) s

/-- States reachable from power-up under arbitrary inputs. -/
inductive Reachable : Sys → Prop
  | init : Reachable initialSys
  | step (i : Inputs) {s : Sys} : Reachable s → Reachable (loopStep i s)

end Ui

namespace Fs

/-- The complete mutable state of the Fast Scroll sketch; same shape as
the v2.0 UI variant, with its own `Settings`. -/
structure Sys : Type where
  settings : Settings
  isRunning : Bool
  isFinished : Bool
  completedCycles : Int
  menuPage : Nat
  currentState : SystemState
  stateStartTime : Nat
  currentDistance : Int
  relayFill : Bool
  relayDrain : Bool
  lastBtnMenu : Bool
  lastBtnStart : Bool
  lastBtnUp : Bool
  lastBtnDown : Bool
  btnPressStartTime : Nat
  lastRepeatTime : Nat
deriving DecidableEq, Repr

/-- The start branch of the START/STOP edge handler. -/
def startSystem (now : Nat) (s : Sys) : Sys :=
  { s with isRunning := true, isFinished := false, completedCycles := 0,
           currentState := .STATE_FILLING, stateStartTime := now }

/-- `stopSystem`: clears `isRunning` and forces both relays OFF. -/
def stopSystem (s : Sys) : Sys :=
  { s with isRunning := false, relayFill := false, relayDrain := false }

/-- Section 1 of `handleButtons`: the START/STOP press-edge toggle. -/
def handleStartStop (i : Inputs) (s : Sys) : Sys :=
  let s :=
    if i.rStart = PIN_LOW ∧ s.lastBtnStart = PIN_HIGH then
      if s.isRunning = false then startSystem i.now s else stopSystem s
    else s
  { s with lastBtnStart := i.rStart }

/-- Section 2 of `handleButtons`: MENU page cycling (wrap after page 3). -/
def handleMenu (i : Inputs) (s : Sys) : Sys :=
  let s :=
    if i.rMenu = PIN_LOW ∧ s.lastBtnMenu = PIN_HIGH then
      let p := s.menuPage + 1
      { s with menuPage := if p > 3 then 0 else p }
    else s
  { s with lastBtnMenu := i.rMenu }

/-- Section 3 of `handleButtons`: the UP button with long-press repeat. -/
def handleUp (i : Inputs) (s : Sys) : Sys :=
  let s :=
    if i.rUp = PIN_LOW then
      if s.lastBtnUp = PIN_HIGH then
        { s with settings := adjustSetting s.menuPage 1 s.settings,
                 btnPressStartTime := i.now, lastRepeatTime := i.now }
      else if i.now - s.btnPressStartTime > LONG_PRESS_DELAY ∧
              i.now - s.lastRepeatTime > REPEAT_RATE then
        { s with settings := adjustSetting s.menuPage 1 s.settings,
                 lastRepeatTime := i.now }
      else s
    else s
  { s with lastBtnUp := i.rUp }

/-- Section 4 of `handleButtons`: the DOWN button with long-press repeat. -/
def handleDown (i : Inputs) (s : Sys) : Sys :=
  let s :=
    if i.rDown = PIN_LOW then
      if s.lastBtnDown = PIN_HIGH then
        { s with settings := adjustSetting s.menuPage (-1) s.settings,
                 btnPressStartTime := i.now, lastRepeatTime := i.now }
      else if i.now - s.btnPressStartTime > LONG_PRESS_DELAY ∧
              i.now - s.lastRepeatTime > REPEAT_RATE then
        { s with settings := adjustSetting s.menuPage (-1) s.settings,
                 lastRepeatTime := i.now }
      else s
    else s
  { s with lastBtnDown := i.rDown }

/-- `handleButtons` of the Fast Scroll variant. -/
def handleButtons (i : Inputs) (s : Sys) : Sys :=
  let s := handleStartStop i s
  if s.isRunning then s
  else handleDown i (handleUp i (handleMenu i s))

/-- Hold duration in milliseconds, `setDurationMins * 60000`. -/
def durationMillis (s : Settings) : Int :=
  s.setDurationMins * 60000

/-- `runCycleLogic` of the Fast Scroll variant.  In this variant every
transition, including the sensor-driven ones, writes
`stateStartTime = millis()`. -/
def runCycleLogic (i : Inputs) (s : Sys) : Sys :=
  let s := { s with currentDistance := i.distance }
  let timeElapsed : Nat := i.now - s.stateStartTime
  match s.currentState with
  | .STATE_FILLING =>
    let s := { s with relayFill := true, relayDrain := false }
    if 0 < s.currentDistance ∧ s.currentDistance ≤ s.settings.setHighDist then
      { s with relayFill := false, currentState := .STATE_HOLD_HIGH,
               stateStartTime := i.now }
    else s
  | .STATE_HOLD_HIGH =>
    let s := { s with relayFill := false, relayDrain := false }
    if (timeElapsed : Int) ≥ durationMillis s.settings then
      { s with currentState := .STATE_DRAINING, stateStartTime := i.now }
    else s
  | .STATE_DRAINING =>
    let s := { s with relayFill := false, relayDrain := true }
    if s.currentDistance ≥ s.settings.setLowDist then
      { s with relayDrain := false, currentState := .STATE_HOLD_LOW,
               stateStartTime := i.now }
    else s
  | .STATE_HOLD_LOW =>
    let s := { s with relayFill := false, relayDrain := false }
    if (timeElapsed : Int) ≥ durationMillis s.settings then
      let s := { s with completedCycles := s.completedCycles + 1 }
      if s.completedCycles ≥ s.settings.setMaxCycles then
        { stopSystem s with isFinished := true }
      else
        { s with currentState := .STATE_FILLING, stateStartTime := i.now }
    else s

/-- `displayMenu` reduced to which view it renders. -/
def displayMenu (s : Sys) : View :=
  if s.isFinished then .finishedView else .settingsPage s.menuPage

/-- One iteration of `loop()`. -/
def loopStep (i : Inputs) (s : Sys) : Sys :=
  let s := handleButtons i s
  if s.isRunning then runCycleLogic i s else s

/-- The state right after `setup()`. -/
def initialSys : Sys :=
  { settings := defaults, isRunning := false, isFinished := false,
    completedCycles := 0, menuPage := 0, currentState := .STATE_FILLING,
    stateStartTime := 0, currentDistance := 0,
    relayFill := false, relayDrain := false,
    lastBtnMenu := PIN_HIGH, lastBtnStart := PIN_HIGH,
    lastBtnUp := PIN_HIGH, lastBtnDown := PIN_HIGH,
    btnPressStartTime := 0, lastRepeatTime := 0 }

/-- Run a list of loop iterations from a state. -/
def runLoop (l : List Inputs) (s : Sys) : Sys :=
  l.foldl (fun s i => loopStep i s) s

/-- States reachable from power-up under arbitrary inputs. -/
inductive Reachable : Sys → Prop
  | init : Reachable initialSys
  | step (i : Inputs) {s : Sys} : Reachable s → Reachable (loopStep i s)

end Fs

/-!
## Submachine for one adjustment button

The UP (resp. DOWN) branch of `handleButtons` — identical in both
variants — only reads and writes `lastBtnUp` (resp. `lastBtnDown`),
`btnPressStartTime` and `lastRepeatTime`, so the long-press/auto-repeat
protocol of a single adjustment button is modelled as its own little
machine.  A poll is one execution of that branch; the fires (calls to
`adjustSetting`) are recorded, newest first, with their timestamp and
whether they came from the press-edge branch or the repeat branch.
-/

/-- Which branch of the adjustment-button logic fired `adjustSetting`. -/
inductive FireKind : Type
  | edgeFire
  | repeatFire
deriving DecidableEq, Repr

/-- State of one adjustment button across polls: the stored previous
level, `btnPressStartTime` and `lastRepeatTime`. -/
structure BtnState : Type where
  lastBtnUp : Bool
  btnPressStartTime : Nat
  lastRepeatTime : Nat
deriving DecidableEq, Repr

/-- One poll of the button: the `millis()` clock and the raw level read
(`PIN_LOW` = pressed). -/
structure Poll : Type where
  now : Nat
  level : Bool
deriving DecidableEq, Repr

/-- A recorded `adjustSetting` fire. -/
structure FireEvent : Type where
  time : Nat
  kind : FireKind
deriving DecidableEq, Repr

/-- One execution of the UP/DOWN branch of `handleButtons` (lines
163-177 resp. 650-668): on a press-edge fire once and record both
timestamps; while held, fire once per poll when both the long-press
delay and the repeat interval have elapsed; finally store the level
read.  Fires are prepended to the accumulator `es` (newest first). -/
def pollStep (p : Poll) (s : BtnState) (es : List FireEvent) :
    BtnState × List FireEvent :=
  if p.level = PIN_LOW then
    if s.lastBtnUp = PIN_HIGH then
      (⟨p.level, p.now, p.now⟩, ⟨p.now, .edgeFire⟩ :: es)
    else if p.now - s.btnPressStartTime > LONG_PRESS_DELAY ∧
            p.now - s.lastRepeatTime > REPEAT_RATE then
      ({ s with lastBtnUp := p.level, lastRepeatTime := p.now },
       ⟨p.now, .repeatFire⟩ :: es)
    else ({ s with lastBtnUp := p.level }, es)
  else ({ s with lastBtnUp := p.level }, es)

/-- Process a list of polls in order. -/
def runPolls (s : BtnState) (es : List FireEvent) :
    List Poll → BtnState × List FireEvent
  | [] => (s, es)
  | p :: ps =>
    let r := pollStep p s es
    runPolls r.1 r.2 ps

/-- Button state at power-up: level HIGH (released), both timestamps 0. -/
def initBtn : BtnState := ⟨PIN_HIGH, 0, 0⟩

/-- Time of the most recent edge fire in a newest-first event list. -/
def firstEdgeTime : List FireEvent → Option Nat
  | [] => none
  | e :: es => if e.kind = .edgeFire then some e.time else firstEdgeTime es

/-- Well-formedness of a newest-first fire list: every repeat fire
came at least `LONG_PRESS_DELAY + 1` ms after the most recent edge fire
before it, and at least `REPEAT_RATE + 1` ms after the immediately
preceding fire of any kind. -/
def GoodEvents (es : List FireEvent) : Prop :=
  ∀ newer e older, es = newer ++ e :: older → e.kind = .repeatFire →
    (∃ tE, firstEdgeTime older = some tE ∧ tE + LONG_PRESS_DELAY + 1 ≤ e.time) ∧
    (∃ prev older2, older = prev :: older2 ∧ prev.time + REPEAT_RATE + 1 ≤ e.time)

/-- Invariant tying the button state to the fire history: while the
stored level is LOW, `btnPressStartTime` is the time of the most recent
edge fire; `lastRepeatTime` is the time of the most recent fire. -/
def GoodBtn (s : BtnState) (es : List FireEvent) : Prop :=
  (s.lastBtnUp = PIN_LOW → firstEdgeTime es = some s.btnPressStartTime) ∧
  (∀ e es2, es = e :: es2 → s.lastRepeatTime = e.time) ∧
  GoodEvents es

/-!
## Validity predicates and call sequences for the settings stores
-/

namespace Ui

/-- Field ranges of the v2.0 UI settings, plus the §3 safety-gap
invariant `setLowDist ≥ setHighDist + 5`. -/
def validSettings (s : Settings) : Prop :=
  0 ≤ s.setHours ∧ s.setHours ≤ 48 ∧ 0 ≤ s.setMinutes ∧ s.setMinutes ≤ 59 ∧
  2 ≤ s.setHighDist ∧ s.setHighDist + 5 ≤ s.setLowDist ∧ 1 ≤ s.setMaxCycles

instance : DecidablePred validSettings := fun s => by
  unfold validSettings; exact inferInstance

/-- The field floors/ranges alone (no safety gap). -/
def floorsOK (s : Settings) : Prop :=
  0 ≤ s.setHours ∧ s.setHours ≤ 48 ∧ 0 ≤ s.setMinutes ∧ s.setMinutes ≤ 59 ∧
  2 ≤ s.setHighDist ∧ 1 ≤ s.setMaxCycles

instance : DecidablePred floorsOK := fun s => by
  unfold floorsOK; exact inferInstance

/-- Apply a sequence of `adjustSetting` calls (page, direction). -/
def applyCalls (calls : List (Nat × Int)) (s : Settings) : Settings :=
  calls.foldl (fun s c => adjustSetting c.1 c.2 s) s

/-- A ±1 adjustment call that is not an increment on the high-threshold
page (page 2 in this variant). -/
def gapSafeCall (c : Nat × Int) : Prop :=
  (c.2 = 1 ∨ c.2 = -1) ∧ ¬(c.1 = 2 ∧ c.2 = 1)

instance : DecidablePred gapSafeCall := fun c => by
  unfold gapSafeCall; exact inferInstance

/-- The §5/§10 run-time invariant used for the actuator claims: while
idle both relays are OFF, and an energized relay pins the phase (fill
only in Filling, drain only in Draining). -/
def Inv (s : Sys) : Prop :=
  (s.isRunning = false → s.relayFill = false ∧ s.relayDrain = false) ∧
  (s.relayFill = true → s.currentState = .STATE_FILLING) ∧
  (s.relayDrain = true → s.currentState = .STATE_DRAINING)

end Ui

namespace Fs

/-- Field floors of the Fast Scroll settings, plus the safety gap. -/
def validSettings (s : Settings) : Prop :=
  1 ≤ s.setDurationMins ∧ 2 ≤ s.setHighDist ∧
  s.setHighDist + 5 ≤ s.setLowDist ∧ 1 ≤ s.setMaxCycles

instance : DecidablePred validSettings := fun s => by
  unfold validSettings; exact inferInstance

/-- The field floors alone (no safety gap). -/
def floorsOK (s : Settings) : Prop :=
  1 ≤ s.setDurationMins ∧ 2 ≤ s.setHighDist ∧ 1 ≤ s.setMaxCycles

instance : DecidablePred floorsOK := fun s => by
  unfold floorsOK; exact inferInstance

/-- Apply a sequence of `adjustSetting` calls (page, direction). -/
def applyCalls (calls : List (Nat × Int)) (s : Settings) : Settings :=
  calls.foldl (fun s c => adjustSetting c.1 c.2 s) s

/-- A ±1 adjustment call that is not an increment on the high-threshold
page (page 1 in this variant). -/
def gapSafeCall (c : Nat × Int) : Prop :=
  (c.2 = 1 ∨ c.2 = -1) ∧ ¬(c.1 = 1 ∧ c.2 = 1)

instance : DecidablePred gapSafeCall := fun c => by
  unfold gapSafeCall; exact inferInstance

/-- Run-time invariant: while idle both relays are OFF, and an
energized relay pins the phase. -/
def Inv (s : Sys) : Prop :=
  (s.isRunning = false → s.relayFill = false ∧ s.relayDrain = false) ∧
  (s.relayFill = true → s.currentState = .STATE_FILLING) ∧
  (s.relayDrain = true → s.currentState = .STATE_DRAINING)

end Fs

/-!
## Concrete input shapes and traces used by the counterexamples
-/

/-- A loop iteration in which only the START button reads LOW. -/
def pressStart (t : Nat) : Inputs :=
  ⟨PIN_HIGH, PIN_HIGH, PIN_HIGH, PIN_LOW, t, 0⟩

/-- A loop iteration with no button pressed, at time `t`, with the
sensor reading `d`. -/
def idlePoll (t : Nat) (d : Int) : Inputs :=
  ⟨PIN_HIGH, PIN_HIGH, PIN_HIGH, PIN_HIGH, t, d⟩

namespace Ui

/-- Reachable running state in `STATE_FILLING` with
`stateStartTime = 0` (start pressed at t = 0, first sensor reading 0). -/
def cexFilling : Sys := loopStep (pressStart 0) initialSys

/-- The state one iteration later: at t = 1000 the distance 5 is within
the high threshold, so the machine has just moved to `STATE_HOLD_HIGH`. -/
def cexHoldHigh : Sys := loopStep (idlePoll 1000 5) cexFilling

/-- A full default run of the v2.0 UI variant driven to completion:
start at t=0; fill until distance 5 at t=100; hold the 1 h 1 min default
duration; drain until distance 60; hold again; the single target cycle
is then complete. -/
def cexDone : Sys :=
  runLoop [pressStart 0, idlePoll 100 5, idlePoll 3660000 0,
           idlePoll 3660100 60, idlePoll 7320000 0] initialSys

end Ui

namespace Ui

/-- A freshly started run (defaults, `STATE_FILLING`, `t = 0`). -/
def fillingSys : Sys := { initialSys with isRunning := true }

/-- A running state holding low with a 1-minute duration and a single
target cycle (the next hold-low expiry finishes the run). -/
def holdLowSysA : Sys :=
  { initialSys with isRunning := true, currentState := .STATE_HOLD_LOW,
                    settings := ⟨0, 1, 10, 50, 1⟩ }

/-- A running state holding low with a 1-minute duration and two target
cycles (the next hold-low expiry loops back to filling). -/
def holdLowSysB : Sys :=
  { initialSys with isRunning := true, currentState := .STATE_HOLD_LOW,
                    settings := ⟨0, 1, 10, 50, 2⟩ }

/-- A running state holding high with a 1-minute duration. -/
def holdHighSys : Sys :=
  { initialSys with isRunning := true, currentState := .STATE_HOLD_HIGH,
                    settings := ⟨0, 1, 10, 50, 1⟩ }

/-- A running state draining with the default settings. -/
def drainingSys : Sys :=
  { initialSys with isRunning := true, currentState := .STATE_DRAINING,
                    settings := ⟨0, 1, 10, 50, 1⟩ }

/-- An idle state flagged as finished (all cycles completed). -/
def finishedSys : Sys := { initialSys with isFinished := true }

end Ui

namespace Fs

/-- A freshly started run (defaults but a 1-minute hold, `STATE_FILLING`). -/
def fillingSys : Sys :=
  { initialSys with isRunning := true, settings := ⟨1, 10, 50, 1⟩ }

/-- A running state holding low, 1-minute duration, one target cycle. -/
def holdLowSysA : Sys :=
  { initialSys with isRunning := true, currentState := .STATE_HOLD_LOW,
                    settings := ⟨1, 10, 50, 1⟩ }

/-- A running state holding low, 1-minute duration, two target cycles. -/
def holdLowSysB : Sys :=
  { initialSys with isRunning := true, currentState := .STATE_HOLD_LOW,
                    settings := ⟨1, 10, 50, 2⟩ }

/-- A running state holding high, 1-minute duration. -/
def holdHighSys : Sys :=
  { initialSys with isRunning := true, currentState := .STATE_HOLD_HIGH,
                    settings := ⟨1, 10, 50, 1⟩ }

/-- A running state draining, 1-minute duration. -/
def drainingSys : Sys :=
  { initialSys with isRunning := true, currentState := .STATE_DRAINING,
                    settings := ⟨1, 10, 50, 1⟩ }

end Fs

/-!
## Helper lemmas: the v2.0 UI variant
-/

namespace Ui

theorem handleMenu_keeps_ui (i : Inputs) (s : Sys) :
    (handleMenu i s).relayFill = s.relayFill ∧
    (handleMenu i s).relayDrain = s.relayDrain ∧
    (handleMenu i s).isRunning = s.isRunning ∧
    (handleMenu i s).isFinished = s.isFinished ∧
    (handleMenu i s).currentState = s.currentState ∧
    (handleMenu i s).completedCycles = s.completedCycles ∧
    (handleMenu i s).stateStartTime = s.stateStartTime := by
  unfold handleMenu
  split <;> simp

theorem handleUp_keeps_ui (i : Inputs) (s : Sys) :
    (handleUp i s).relayFill = s.relayFill ∧
    (handleUp i s).relayDrain = s.relayDrain ∧
    (handleUp i s).isRunning = s.isRunning ∧
    (handleUp i s).isFinished = s.isFinished ∧
    (handleUp i s).currentState = s.currentState ∧
    (handleUp i s).completedCycles = s.completedCycles ∧
    (handleUp i s).stateStartTime = s.stateStartTime := by
  unfold handleUp
  split <;> (try split) <;> (try split) <;> simp

theorem handleDown_keeps_ui (i : Inputs) (s : Sys) :
    (handleDown i s).relayFill = s.relayFill ∧
    (handleDown i s).relayDrain = s.relayDrain ∧
    (handleDown i s).isRunning = s.isRunning ∧
    (handleDown i s).isFinished = s.isFinished ∧
    (handleDown i s).currentState = s.currentState ∧
    (handleDown i s).completedCycles = s.completedCycles ∧
    (handleDown i s).stateStartTime = s.stateStartTime := by
  unfold handleDown
  split <;> (try split) <;> (try split) <;> simp

theorem inv_handleStartStop_ui (i : Inputs) (s : Sys) (h : Inv s) :
    Inv (handleStartStop i s) := by
  unfold Inv at *
  unfold handleStartStop startSystem stopSystem
  split
  · split <;> simp_all
  · simp_all

theorem inv_handleButtons_ui (i : Inputs) (s : Sys) (h : Inv s) :
    Inv (handleButtons i s) := by
  unfold handleButtons
  have h1 := inv_handleStartStop_ui i s h
  dsimp only
  split
  · exact h1
  · obtain ⟨a1, a2, a3, a4, a5, a6, a7⟩ := handleMenu_keeps_ui i (handleStartStop i s)
    obtain ⟨b1, b2, b3, b4, b5, b6, b7⟩ := handleUp_keeps_ui i (handleMenu i (handleStartStop i s))
    obtain ⟨c1, c2, c3, c4, c5, c6, c7⟩ :=
      handleDown_keeps_ui i (handleUp i (handleMenu i (handleStartStop i s)))
    unfold Inv at *
    simp_all

theorem inv_runCycleLogic_ui (i : Inputs) (s : Sys)
    (hr : s.isRunning = true) : Inv (runCycleLogic i s) := by
  unfold Inv
  unfold runCycleLogic stopSystem
  dsimp only
  split <;> (try split) <;> (try split) <;> simp_all

theorem inv_loopStep_ui (i : Inputs) (s : Sys) (h : Inv s) : Inv (loopStep i s) := by
  unfold loopStep
  have h1 := inv_handleButtons_ui i s h
  dsimp only
  split
  · rename_i hr
    exact inv_runCycleLogic_ui i _ hr
  · exact h1

theorem reachable_inv_ui {s : Sys} (h : Reachable s) : Inv s := by
  induction h with
  | init => exact ⟨fun _ => ⟨rfl, rfl⟩, by simp [initialSys], by simp [initialSys]⟩
  | step i _ ih => exact inv_loopStep_ui i _ ih

theorem reachable_runLoop_ui (l : List Inputs) {s : Sys} (h : Reachable s) :
    Reachable (runLoop l s) := by
  induction l generalizing s with
  | nil => exact h
  | cons i l ih => exact ih (Reachable.step i h)

end Ui

/-!
## Helper lemmas: the Fast Scroll variant
-/

namespace Fs

theorem handleMenu_keeps_fs (i : Inputs) (s : Sys) :
    (handleMenu i s).relayFill = s.relayFill ∧
    (handleMenu i s).relayDrain = s.relayDrain ∧
    (handleMenu i s).isRunning = s.isRunning ∧
    (handleMenu i s).isFinished = s.isFinished ∧
    (handleMenu i s).currentState = s.currentState ∧
    (handleMenu i s).completedCycles = s.completedCycles ∧
    (handleMenu i s).stateStartTime = s.stateStartTime := by
  unfold handleMenu
  split <;> simp

theorem handleUp_keeps_fs (i : Inputs) (s : Sys) :
    (handleUp i s).relayFill = s.relayFill ∧
    (handleUp i s).relayDrain = s.relayDrain ∧
    (handleUp i s).isRunning = s.isRunning ∧
    (handleUp i s).isFinished = s.isFinished ∧
    (handleUp i s).currentState = s.currentState ∧
    (handleUp i s).completedCycles = s.completedCycles ∧
    (handleUp i s).stateStartTime = s.stateStartTime := by
  unfold handleUp
  split <;> (try split) <;> (try split) <;> simp

theorem handleDown_keeps_fs (i : Inputs) (s : Sys) :
    (handleDown i s).relayFill = s.relayFill ∧
    (handleDown i s).relayDrain = s.relayDrain ∧
    (handleDown i s).isRunning = s.isRunning ∧
    (handleDown i s).isFinished = s.isFinished ∧
    (handleDown i s).currentState = s.currentState ∧
    (handleDown i s).completedCycles = s.completedCycles ∧
    (handleDown i s).stateStartTime = s.stateStartTime := by
  unfold handleDown
  split <;> (try split) <;> (try split) <;> simp

theorem inv_handleStartStop_fs (i : Inputs) (s : Sys) (h : Inv s) :
    Inv (handleStartStop i s) := by
  unfold Inv at *
  unfold handleStartStop startSystem stopSystem
  split
  · split <;> simp_all
  · simp_all

theorem inv_handleButtons_fs (i : Inputs) (s : Sys) (h : Inv s) :
    Inv (handleButtons i s) := by
  unfold handleButtons
  have h1 := inv_handleStartStop_fs i s h
  dsimp only
  split
  · exact h1
  · obtain ⟨a1, a2, a3, a4, a5, a6, a7⟩ := handleMenu_keeps_fs i (handleStartStop i s)
    obtain ⟨b1, b2, b3, b4, b5, b6, b7⟩ := handleUp_keeps_fs i (handleMenu i (handleStartStop i s))
    obtain ⟨c1, c2, c3, c4, c5, c6, c7⟩ :=
      handleDown_keeps_fs i (handleUp i (handleMenu i (handleStartStop i s)))
    unfold Inv at *
    simp_all

theorem inv_runCycleLogic_fs (i : Inputs) (s : Sys)
    (hr : s.isRunning = true) : Inv (runCycleLogic i s) := by
  unfold Inv
  unfold runCycleLogic stopSystem
  dsimp only
  split <;> (try split) <;> (try split) <;> simp_all

theorem inv_loopStep_fs (i : Inputs) (s : Sys) (h : Inv s) : Inv (loopStep i s) := by
  unfold loopStep
  have h1 := inv_handleButtons_fs i s h
  dsimp only
  split
  · rename_i hr
    exact inv_runCycleLogic_fs i _ hr
  · exact h1

theorem reachable_inv_fs {s : Sys} (h : Reachable s) : Inv s := by
  induction h with
  | init => exact ⟨fun _ => ⟨rfl, rfl⟩, by simp [initialSys], by simp [initialSys]⟩
  | step i _ ih => exact inv_loopStep_fs i _ ih

theorem reachable_runLoop_fs (l : List Inputs) {s : Sys} (h : Reachable s) :
    Reachable (runLoop l s) := by
  induction l generalizing s with
  | nil => exact h
  | cons i l ih => exact ih (Reachable.step i h)

end Fs

/-!
## Helper lemmas: the settings stores
-/

namespace Ui

theorem valid_adjust_ui (c : Nat × Int) (s : Settings)
    (hs : validSettings s) (hc : gapSafeCall c) :
    validSettings (adjustSetting c.1 c.2 s) := by
  obtain ⟨page, dir⟩ := c
  obtain ⟨hd, hp⟩ := hc
  dsimp only at hd hp ⊢
  unfold validSettings at hs ⊢
  unfold adjustSetting
  split <;> (try dsimp only) <;> repeat' split
  all_goals omega

theorem floors_adjust_ui (c : Nat × Int) (s : Settings)
    (hs : floorsOK s) : floorsOK (adjustSetting c.1 c.2 s) := by
  obtain ⟨page, dir⟩ := c
  dsimp only
  unfold floorsOK at hs ⊢
  unfold adjustSetting
  split <;> (try dsimp only) <;> repeat' split
  all_goals omega

theorem valid_applyCalls_ui (calls : List (Nat × Int)) (s : Settings)
    (hs : validSettings s) (hall : ∀ c ∈ calls, gapSafeCall c) :
    validSettings (applyCalls calls s) := by
  induction calls generalizing s with
  | nil => exact hs
  | cons c cs ih =>
    have h1 := valid_adjust_ui c s hs (hall c (List.mem_cons_self c cs))
    exact ih _ h1 (fun d hd => hall d (List.mem_cons_of_mem c hd))

theorem floors_applyCalls_ui (calls : List (Nat × Int)) (s : Settings)
    (hs : floorsOK s) : floorsOK (applyCalls calls s) := by
  induction calls generalizing s with
  | nil => exact hs
  | cons c cs ih => exact ih _ (floors_adjust_ui c s hs)

end Ui

namespace Fs

theorem valid_adjust_fs (c : Nat × Int) (s : Settings)
    (hs : validSettings s) (hc : gapSafeCall c) :
    validSettings (adjustSetting c.1 c.2 s) := by
  obtain ⟨page, dir⟩ := c
  obtain ⟨hd, hp⟩ := hc
  dsimp only at hd hp ⊢
  unfold validSettings at hs ⊢
  unfold adjustSetting
  split <;> (try dsimp only) <;> repeat' split
  all_goals omega

theorem floors_adjust_fs (c : Nat × Int) (s : Settings)
    (hs : floorsOK s) : floorsOK (adjustSetting c.1 c.2 s) := by
  obtain ⟨page, dir⟩ := c
  dsimp only
  unfold floorsOK at hs ⊢
  unfold adjustSetting
  split <;> (try dsimp only) <;> repeat' split
  all_goals omega

theorem valid_applyCalls_fs (calls : List (Nat × Int)) (s : Settings)
    (hs : validSettings s) (hall : ∀ c ∈ calls, gapSafeCall c) :
    validSettings (applyCalls calls s) := by
  induction calls generalizing s with
  | nil => exact hs
  | cons c cs ih =>
    have h1 := valid_adjust_fs c s hs (hall c (List.mem_cons_self c cs))
    exact ih _ h1 (fun d hd => hall d (List.mem_cons_of_mem c hd))

theorem floors_applyCalls_fs (calls : List (Nat × Int)) (s : Settings)
    (hs : floorsOK s) : floorsOK (applyCalls calls s) := by
  induction calls generalizing s with
  | nil => exact hs
  | cons c cs ih => exact ih _ (floors_adjust_fs c s hs)

theorem valid_duration_inc (s : Settings) (hs : validSettings s) :
    (adjustSetting 0 1 s).setDurationMins = s.setDurationMins + 1 := by
  obtain ⟨h1, _⟩ := hs
  unfold adjustSetting
  dsimp only
  split <;> omega

theorem duration_replicate (n : Nat) (s : Settings) (hs : validSettings s) :
    (applyCalls (List.replicate n (0, 1)) s).setDurationMins =
      s.setDurationMins + n := by
  induction n generalizing s with
  | zero => simp [applyCalls]
  | succ n ih =>
    have hv : validSettings (adjustSetting 0 1 s) :=
      valid_adjust_fs (0, 1) s hs ⟨Or.inl rfl, by simp⟩
    have hstep : applyCalls (List.replicate (n + 1) (0, 1)) s =
        applyCalls (List.replicate n (0, 1)) (adjustSetting 0 1 s) := by
      rw [List.replicate_succ]; rfl
    rw [hstep, ih _ hv, valid_duration_inc s hs]
    push_cast
    ring

end Fs

/-!
## Claim C1 — the high/low threshold safety gap
-/

/-- C1, counterexample: from valid settings with the minimum gap
(`lowLevelThreshold = highLevelThreshold + 5`), a single
`adjustSetting(+1)` on the high-threshold page leaves the low threshold
unchanged and breaks `lowLevelThreshold ≥ highLevelThreshold + 5`, in
both variants. -/
theorem claim_C1_cex :
    ((⟨360, 10, 15, 1⟩ : Fs.Settings).setHighDist + 5 ≤
        (⟨360, 10, 15, 1⟩ : Fs.Settings).setLowDist) ∧
    ¬((Fs.adjustSetting 1 1 ⟨360, 10, 15, 1⟩).setHighDist + 5 ≤
        (Fs.adjustSetting 1 1 ⟨360, 10, 15, 1⟩).setLowDist) ∧
    ((⟨1, 1, 10, 15, 1⟩ : Ui.Settings).setHighDist + 5 ≤
        (⟨1, 1, 10, 15, 1⟩ : Ui.Settings).setLowDist) ∧
    ¬((Ui.adjustSetting 2 1 ⟨1, 1, 10, 15, 1⟩).setHighDist + 5 ≤
        (Ui.adjustSetting 2 1 ⟨1, 1, 10, 15, 1⟩).setLowDist) := by
  decide

/-- C1 (amended): starting from valid settings, the invariant
`lowLevelThreshold ≥ highLevelThreshold + 5` still holds after every
sequence of `adjustSetting` calls with direction ±1 in any order,
PROVIDED no call is an increment on the high-threshold page (the code
re-clamps the gap only when the low field itself is written).  This
holds in both variants. -/
theorem claim_C1_amended :
    (∀ (s : Ui.Settings) (calls : List (Nat × Int)), Ui.validSettings s →
        (∀ c ∈ calls, Ui.gapSafeCall c) →
        (Ui.applyCalls calls s).setHighDist + 5 ≤
          (Ui.applyCalls calls s).setLowDist) ∧
    (∀ (s : Fs.Settings) (calls : List (Nat × Int)), Fs.validSettings s →
        (∀ c ∈ calls, Fs.gapSafeCall c) →
        (Fs.applyCalls calls s).setHighDist + 5 ≤
          (Fs.applyCalls calls s).setLowDist) := by
  constructor
  · intro s calls hs hall
    exact (Ui.valid_applyCalls_ui calls s hs hall).2.2.2.2.2.1
  · intro s calls hs hall
    exact (Fs.valid_applyCalls_fs calls s hs hall).2.2.1

/-- C1 amended, witness: the default settings are valid, and a concrete
gap-safe call sequence (low-threshold decrement, then high-threshold
decrement) keeps the gap, in both variants. -/
theorem claim_C1_amended_witness :
    ((Ui.applyCalls [(3, -1), (2, -1)] Ui.defaults).setHighDist + 5 ≤
        (Ui.applyCalls [(3, -1), (2, -1)] Ui.defaults).setLowDist) ∧
    ((Fs.applyCalls [(2, -1), (1, -1)] Fs.defaults).setHighDist + 5 ≤
        (Fs.applyCalls [(2, -1), (1, -1)] Fs.defaults).setLowDist) :=
  ⟨claim_C1_amended.1 Ui.defaults [(3, -1), (2, -1)] (by decide) (by decide),
   claim_C1_amended.2 Fs.defaults [(2, -1), (1, -1)] (by decide) (by decide)⟩

/-!
## Claim C7 — lower floors of the settings fields
-/

/-- C7, counterexample: in the v2.0 UI variant the hold duration CAN
fall below one minute: from the defaults (1 h, 1 min), one decrement on
the hours page and one on the minutes page leave a total hold duration
of 0 ms. -/
theorem claim_C7_cex :
    (Ui.applyCalls [(0, -1), (1, -1)] Ui.defaults).setHours = 0 ∧
    (Ui.applyCalls [(0, -1), (1, -1)] Ui.defaults).setMinutes = 0 ∧
    Ui.durationMillis (Ui.applyCalls [(0, -1), (1, -1)] Ui.defaults) = 0 ∧
    Ui.durationMillis (Ui.applyCalls [(0, -1), (1, -1)] Ui.defaults) < 60000 := by
  decide

/-- C7 (amended): after any sequence of `adjustSetting` calls (any
pages, any directions), the Fast Scroll variant's fields respect their
floors (`setDurationMins ≥ 1`, `setHighDist ≥ 2`, `setMaxCycles ≥ 1`);
in the v2.0 UI variant `setHighDist ≥ 2` and `setMaxCycles ≥ 1` likewise
hold, and hours/minutes stay within [0, 48] / [0, 59] — but the combined
hold duration has floor 0 minutes, not 1. -/
theorem claim_C7_amended :
    (∀ (s : Fs.Settings) (calls : List (Nat × Int)), Fs.floorsOK s →
        1 ≤ (Fs.applyCalls calls s).setDurationMins ∧
        2 ≤ (Fs.applyCalls calls s).setHighDist ∧
        1 ≤ (Fs.applyCalls calls s).setMaxCycles) ∧
    (∀ (s : Ui.Settings) (calls : List (Nat × Int)), Ui.floorsOK s →
        2 ≤ (Ui.applyCalls calls s).setHighDist ∧
        1 ≤ (Ui.applyCalls calls s).setMaxCycles ∧
        0 ≤ (Ui.applyCalls calls s).setHours ∧
        (Ui.applyCalls calls s).setHours ≤ 48 ∧
        0 ≤ (Ui.applyCalls calls s).setMinutes ∧
        (Ui.applyCalls calls s).setMinutes ≤ 59) := by
  constructor
  · intro s calls hs
    exact Fs.floors_applyCalls_fs calls s hs
  · intro s calls hs
    obtain ⟨h1, h2, h3, h4, h5, h6⟩ := Ui.floors_applyCalls_ui calls s hs
    exact ⟨h5, h6, h1, h2, h3, h4⟩

/-- C7 amended, witness: a concrete all-decrements sequence over every
page, applied to the defaults of each variant. -/
theorem claim_C7_amended_witness :
    (1 ≤ (Fs.applyCalls [(0, -1), (1, -1), (2, -1), (3, -1)] Fs.defaults).setDurationMins ∧
     2 ≤ (Fs.applyCalls [(0, -1), (1, -1), (2, -1), (3, -1)] Fs.defaults).setHighDist ∧
     1 ≤ (Fs.applyCalls [(0, -1), (1, -1), (2, -1), (3, -1)] Fs.defaults).setMaxCycles) ∧
    (2 ≤ (Ui.applyCalls [(2, -1), (4, -1)] Ui.defaults).setHighDist ∧
     1 ≤ (Ui.applyCalls [(2, -1), (4, -1)] Ui.defaults).setMaxCycles ∧
     0 ≤ (Ui.applyCalls [(2, -1), (4, -1)] Ui.defaults).setHours ∧
     (Ui.applyCalls [(2, -1), (4, -1)] Ui.defaults).setHours ≤ 48 ∧
     0 ≤ (Ui.applyCalls [(2, -1), (4, -1)] Ui.defaults).setMinutes ∧
     (Ui.applyCalls [(2, -1), (4, -1)] Ui.defaults).setMinutes ≤ 59) :=
  ⟨claim_C7_amended.1 Fs.defaults [(0, -1), (1, -1), (2, -1), (3, -1)] (by decide),
   claim_C7_amended.2 Ui.defaults [(2, -1), (4, -1)] (by decide)⟩

/-!
## Claim C8 — no upper bounds on settings
-/

/-- C8, counterexample: `adjustSetting(+1)` does NOT always increase the
selected field by exactly one: the v2.0 UI variant clamps hours at 48
and wraps minutes from 59 to 0, and the low-threshold safety clamp can
raise the low field by more than one (here 50 → 52 in the Fast Scroll
variant with `setHighDist = 47`). -/
theorem claim_C8_cex :
    (Ui.adjustSetting 0 1 ⟨48, 0, 10, 50, 1⟩).setHours = 48 ∧
    (Ui.adjustSetting 1 1 ⟨1, 59, 10, 50, 1⟩).setMinutes = 0 ∧
    (Fs.adjustSetting 2 1 ⟨360, 47, 50, 1⟩).setLowDist = 52 := by
  decide

/-- C8 (amended): no upper bound is enforced on the Fast Scroll
variant's fields: from any valid settings, `adjustSetting(+1)`
increases the selected field by exactly one on every page, and `n`
increments on the duration page add exactly `n` (unbounded growth).  In
the v2.0 UI variant the high-threshold, low-threshold and cycle-count
pages likewise increment by exactly one from valid settings, but hours
are clamped at 48 and minutes wrap from 59 to 0; the low-threshold
clamp can also exceed a one-step increment when the safety gap is
already violated. -/
theorem claim_C8_amended :
    (∀ s : Fs.Settings, Fs.validSettings s →
        (Fs.adjustSetting 0 1 s).setDurationMins = s.setDurationMins + 1 ∧
        (Fs.adjustSetting 1 1 s).setHighDist = s.setHighDist + 1 ∧
        (Fs.adjustSetting 2 1 s).setLowDist = s.setLowDist + 1 ∧
        (Fs.adjustSetting 3 1 s).setMaxCycles = s.setMaxCycles + 1) ∧
    (∀ (s : Fs.Settings) (n : Nat), Fs.validSettings s →
        (Fs.applyCalls (List.replicate n (0, 1)) s).setDurationMins =
          s.setDurationMins + n) ∧
    (∀ s : Ui.Settings, Ui.validSettings s →
        (Ui.adjustSetting 2 1 s).setHighDist = s.setHighDist + 1 ∧
        (Ui.adjustSetting 3 1 s).setLowDist = s.setLowDist + 1 ∧
        (Ui.adjustSetting 4 1 s).setMaxCycles = s.setMaxCycles + 1 ∧
        (Ui.adjustSetting 0 1 s).setHours =
          (if s.setHours + 1 > 48 then 48 else s.setHours + 1) ∧
        (Ui.adjustSetting 1 1 s).setMinutes =
          (if s.setMinutes + 1 > 59 then 0 else s.setMinutes + 1)) := by
  refine ⟨?_, ?_, ?_⟩
  · intro s hs
    obtain ⟨h1, h2, h3, h4⟩ := hs
    unfold Fs.adjustSetting
    refine ⟨?_, ?_, ?_, ?_⟩ <;> (dsimp only; split <;> omega)
  · intro s n hs
    exact Fs.duration_replicate n s hs
  · intro s hs
    obtain ⟨h1, h2, h3, h4, h5, h6, h7⟩ := hs
    unfold Ui.adjustSetting
    refine ⟨?_, ?_, ?_, ?_, ?_⟩ <;> (dsimp only; repeat' split) <;> omega

/-- C8 amended, witness: the instantiation at each variant's defaults,
with three increments on the Fast Scroll duration page. -/
theorem claim_C8_amended_witness :
    ((Fs.adjustSetting 0 1 Fs.defaults).setDurationMins = Fs.defaults.setDurationMins + 1 ∧
     (Fs.adjustSetting 1 1 Fs.defaults).setHighDist = Fs.defaults.setHighDist + 1 ∧
     (Fs.adjustSetting 2 1 Fs.defaults).setLowDist = Fs.defaults.setLowDist + 1 ∧
     (Fs.adjustSetting 3 1 Fs.defaults).setMaxCycles = Fs.defaults.setMaxCycles + 1) ∧
    (Fs.applyCalls (List.replicate 3 (0, 1)) Fs.defaults).setDurationMins =
      Fs.defaults.setDurationMins + 3 ∧
    ((Ui.adjustSetting 2 1 Ui.defaults).setHighDist = Ui.defaults.setHighDist + 1 ∧
     (Ui.adjustSetting 3 1 Ui.defaults).setLowDist = Ui.defaults.setLowDist + 1 ∧
     (Ui.adjustSetting 4 1 Ui.defaults).setMaxCycles = Ui.defaults.setMaxCycles + 1 ∧
     (Ui.adjustSetting 0 1 Ui.defaults).setHours =
       (if Ui.defaults.setHours + 1 > 48 then 48 else Ui.defaults.setHours + 1) ∧
     (Ui.adjustSetting 1 1 Ui.defaults).setMinutes =
       (if Ui.defaults.setMinutes + 1 > 59 then 0 else Ui.defaults.setMinutes + 1)) :=
  ⟨claim_C8_amended.1 Fs.defaults (by decide),
   claim_C8_amended.2.1 Fs.defaults 3 (by decide),
   claim_C8_amended.2.2 Ui.defaults (by decide)⟩

/-!
## Helper lemmas: start/stop behavior of `handleButtons`
-/

namespace Ui

theorem handleButtons_start_ui (i : Inputs) (s : Sys) (h0 : s.isRunning = false)
    (h1 : i.rStart = PIN_LOW) (h2 : s.lastBtnStart = PIN_HIGH) :
    handleButtons i s = { startSystem i.now s with lastBtnStart := i.rStart } := by
  unfold handleButtons handleStartStop
  dsimp only
  simp [h0, h1, h2, startSystem]

theorem handleButtons_stop_ui (i : Inputs) (s : Sys) (hr : s.isRunning = true)
    (h1 : i.rStart = PIN_LOW) (h2 : s.lastBtnStart = PIN_HIGH) :
    (handleButtons i s).isRunning = false ∧
    (handleButtons i s).relayFill = false ∧
    (handleButtons i s).relayDrain = false := by
  unfold handleButtons handleStartStop
  dsimp only
  simp [h1, h2, hr, stopSystem, handleMenu_keeps_ui, handleUp_keeps_ui, handleDown_keeps_ui]

theorem handleButtons_noStart_ui (i : Inputs) (s : Sys) (h0 : s.isRunning = false)
    (hne : ¬(i.rStart = PIN_LOW ∧ s.lastBtnStart = PIN_HIGH)) :
    (handleButtons i s).isRunning = false ∧
    (handleButtons i s).currentState = s.currentState ∧
    (handleButtons i s).completedCycles = s.completedCycles ∧
    (handleButtons i s).isFinished = s.isFinished ∧
    (handleButtons i s).relayFill = s.relayFill ∧
    (handleButtons i s).relayDrain = s.relayDrain ∧
    (handleButtons i s).stateStartTime = s.stateStartTime := by
  unfold handleButtons handleStartStop
  dsimp only
  rw [if_neg hne]
  simp only [h0]
  obtain ⟨a1, a2, a3, a4, a5, a6, a7⟩ :=
    handleMenu_keeps_ui i { s with lastBtnStart := i.rStart }
  obtain ⟨b1, b2, b3, b4, b5, b6, b7⟩ :=
    handleUp_keeps_ui i (handleMenu i { s with lastBtnStart := i.rStart })
  obtain ⟨c1, c2, c3, c4, c5, c6, c7⟩ :=
    handleDown_keeps_ui i (handleUp i (handleMenu i { s with lastBtnStart := i.rStart }))
  simp_all

theorem loopStep_noStart_ui (i : Inputs) (s : Sys) (h0 : s.isRunning = false)
    (hne : ¬(i.rStart = PIN_LOW ∧ s.lastBtnStart = PIN_HIGH)) :
    (loopStep i s).isRunning = false ∧
    (loopStep i s).currentState = s.currentState ∧
    (loopStep i s).completedCycles = s.completedCycles ∧
    (loopStep i s).isFinished = s.isFinished := by
  obtain ⟨k1, k2, k3, k4, k5, k6, k7⟩ := handleButtons_noStart_ui i s h0 hne
  unfold loopStep
  dsimp only
  rw [if_neg (by rw [k1]; exact Bool.false_ne_true)]
  exact ⟨k1, k2, k3, k4⟩

end Ui

namespace Fs

theorem handleButtons_start_fs (i : Inputs) (s : Sys) (h0 : s.isRunning = false)
    (h1 : i.rStart = PIN_LOW) (h2 : s.lastBtnStart = PIN_HIGH) :
    handleButtons i s = { startSystem i.now s with lastBtnStart := i.rStart } := by
  unfold handleButtons handleStartStop
  dsimp only
  simp [h0, h1, h2, startSystem]

theorem handleButtons_stop_fs (i : Inputs) (s : Sys) (hr : s.isRunning = true)
    (h1 : i.rStart = PIN_LOW) (h2 : s.lastBtnStart = PIN_HIGH) :
    (handleButtons i s).isRunning = false ∧
    (handleButtons i s).relayFill = false ∧
    (handleButtons i s).relayDrain = false := by
  unfold handleButtons handleStartStop
  dsimp only
  simp [h1, h2, hr, stopSystem, handleMenu_keeps_fs, handleUp_keeps_fs, handleDown_keeps_fs]

theorem handleButtons_noStart_fs (i : Inputs) (s : Sys) (h0 : s.isRunning = false)
    (hne : ¬(i.rStart = PIN_LOW ∧ s.lastBtnStart = PIN_HIGH)) :
    (handleButtons i s).isRunning = false ∧
    (handleButtons i s).currentState = s.currentState ∧
    (handleButtons i s).completedCycles = s.completedCycles ∧
    (handleButtons i s).isFinished = s.isFinished ∧
    (handleButtons i s).relayFill = s.relayFill ∧
    (handleButtons i s).relayDrain = s.relayDrain ∧
    (handleButtons i s).stateStartTime = s.stateStartTime := by
  unfold handleButtons handleStartStop
  dsimp only
  rw [if_neg hne]
  simp only [h0]
  obtain ⟨a1, a2, a3, a4, a5, a6, a7⟩ :=
    handleMenu_keeps_fs i { s with lastBtnStart := i.rStart }
  obtain ⟨b1, b2, b3, b4, b5, b6, b7⟩ :=
    handleUp_keeps_fs i (handleMenu i { s with lastBtnStart := i.rStart })
  obtain ⟨c1, c2, c3, c4, c5, c6, c7⟩ :=
    handleDown_keeps_fs i (handleUp i (handleMenu i { s with lastBtnStart := i.rStart }))
  simp_all

theorem loopStep_noStart_fs (i : Inputs) (s : Sys) (h0 : s.isRunning = false)
    (hne : ¬(i.rStart = PIN_LOW ∧ s.lastBtnStart = PIN_HIGH)) :
    (loopStep i s).isRunning = false ∧
    (loopStep i s).currentState = s.currentState ∧
    (loopStep i s).completedCycles = s.completedCycles ∧
    (loopStep i s).isFinished = s.isFinished := by
  obtain ⟨k1, k2, k3, k4, k5, k6, k7⟩ := handleButtons_noStart_fs i s h0 hne
  unfold loopStep
  dsimp only
  rw [if_neg (by rw [k1]; exact Bool.false_ne_true)]
  exact ⟨k1, k2, k3, k4⟩

end Fs

/-!
## Claim C2 — phase timer reset on transitions
-/

/-- C2, counterexample: in the v2.0 UI variant the Filling → HoldHigh
transition does NOT set the phase start timestamp.  `cexFilling` is a
reachable running state in `STATE_FILLING` with `stateStartTime = 0`;
the loop iteration at `millis() = 1000` (distance 5 ≤ high threshold 10)
moves it to `STATE_HOLD_HIGH`, yet `stateStartTime` is still 0, not
1000. -/
theorem claim_C2_cex :
    Ui.Reachable Ui.cexHoldHigh ∧
    Ui.cexFilling.isRunning = true ∧
    Ui.cexFilling.currentState = .STATE_FILLING ∧
    Ui.cexFilling.stateStartTime = 0 ∧
    Ui.cexHoldHigh = Ui.loopStep (idlePoll 1000 5) Ui.cexFilling ∧
    Ui.cexHoldHigh.currentState = .STATE_HOLD_HIGH ∧
    Ui.cexHoldHigh.stateStartTime = 0 ∧
    ¬(Ui.cexHoldHigh.stateStartTime = 1000) := by
  refine ⟨?_, by decide, by decide, by decide, rfl, by decide, by decide, by decide⟩
  exact Ui.Reachable.step (idlePoll 1000 5)
    (Ui.Reachable.step (pressStart 0) Ui.Reachable.init)

/-- C2 (amended): in the Fast Scroll variant `stateStartTime` is set to
the current time on every phase transition.  In the v2.0 UI variant only
the timer-driven transitions (HoldHigh → Draining, HoldLow → Filling) set
it; the sensor-driven transitions (Filling → HoldHigh,
Draining → HoldLow) leave the old timestamp in place. -/
theorem claim_C2_amended :
    (∀ (i : Inputs) (s : Fs.Sys), s.currentState = .STATE_FILLING →
        0 < i.distance → i.distance ≤ s.settings.setHighDist →
        (Fs.runCycleLogic i s).currentState = .STATE_HOLD_HIGH ∧
        (Fs.runCycleLogic i s).stateStartTime = i.now) ∧
    (∀ (i : Inputs) (s : Fs.Sys), s.currentState = .STATE_HOLD_HIGH →
        ((i.now - s.stateStartTime : Nat) : Int) ≥ Fs.durationMillis s.settings →
        (Fs.runCycleLogic i s).currentState = .STATE_DRAINING ∧
        (Fs.runCycleLogic i s).stateStartTime = i.now) ∧
    (∀ (i : Inputs) (s : Fs.Sys), s.currentState = .STATE_DRAINING →
        i.distance ≥ s.settings.setLowDist →
        (Fs.runCycleLogic i s).currentState = .STATE_HOLD_LOW ∧
        (Fs.runCycleLogic i s).stateStartTime = i.now) ∧
    (∀ (i : Inputs) (s : Fs.Sys), s.currentState = .STATE_HOLD_LOW →
        ((i.now - s.stateStartTime : Nat) : Int) ≥ Fs.durationMillis s.settings →
        s.completedCycles + 1 < s.settings.setMaxCycles →
        (Fs.runCycleLogic i s).currentState = .STATE_FILLING ∧
        (Fs.runCycleLogic i s).stateStartTime = i.now) ∧
    (∀ (i : Inputs) (s : Ui.Sys), s.currentState = .STATE_HOLD_HIGH →
        ((i.now - s.stateStartTime : Nat) : Int) ≥ Ui.durationMillis s.settings →
        (Ui.runCycleLogic i s).currentState = .STATE_DRAINING ∧
        (Ui.runCycleLogic i s).stateStartTime = i.now) ∧
    (∀ (i : Inputs) (s : Ui.Sys), s.currentState = .STATE_HOLD_LOW →
        ((i.now - s.stateStartTime : Nat) : Int) ≥ Ui.durationMillis s.settings →
        s.completedCycles + 1 < s.settings.setMaxCycles →
        (Ui.runCycleLogic i s).currentState = .STATE_FILLING ∧
        (Ui.runCycleLogic i s).stateStartTime = i.now) ∧
    (∀ (i : Inputs) (s : Ui.Sys), s.currentState = .STATE_FILLING →
        0 < i.distance → i.distance ≤ s.settings.setHighDist →
        (Ui.runCycleLogic i s).currentState = .STATE_HOLD_HIGH ∧
        (Ui.runCycleLogic i s).stateStartTime = s.stateStartTime) ∧
    (∀ (i : Inputs) (s : Ui.Sys), s.currentState = .STATE_DRAINING →
        i.distance ≥ s.settings.setLowDist →
        (Ui.runCycleLogic i s).currentState = .STATE_HOLD_LOW ∧
        (Ui.runCycleLogic i s).stateStartTime = s.stateStartTime) := by
  refine ⟨?_, ?_, ?_, ?_, ?_, ?_, ?_, ?_⟩
  · intro i s h1 h2 h3
    unfold Fs.runCycleLogic
    dsimp only
    split <;> simp_all
  · intro i s h1 h2
    unfold Fs.runCycleLogic
    dsimp only
    split <;> simp_all
  · intro i s h1 h2
    unfold Fs.runCycleLogic
    dsimp only
    split <;> simp_all
  · intro i s h1 h2 h3
    unfold Fs.runCycleLogic
    dsimp only
    rw [h1]
    dsimp only
    rw [if_pos h2, if_neg (show ¬(s.completedCycles + 1 ≥ s.settings.setMaxCycles) from by omega)]
    exact ⟨rfl, rfl⟩
  · intro i s h1 h2
    unfold Ui.runCycleLogic
    dsimp only
    split <;> simp_all
  · intro i s h1 h2 h3
    unfold Ui.runCycleLogic
    dsimp only
    rw [h1]
    dsimp only
    rw [if_pos h2, if_neg (show ¬(s.completedCycles + 1 ≥ s.settings.setMaxCycles) from by omega)]
    exact ⟨rfl, rfl⟩
  · intro i s h1 h2 h3
    unfold Ui.runCycleLogic
    dsimp only
    split <;> simp_all
  · intro i s h1 h2
    unfold Ui.runCycleLogic
    dsimp only
    split <;> simp_all

/-- C2 amended, witness: each transition instantiated on a concrete
running state of the matching phase. -/
theorem claim_C2_amended_witness :
    ((Fs.runCycleLogic (idlePoll 1000 5) Fs.fillingSys).currentState = .STATE_HOLD_HIGH ∧
     (Fs.runCycleLogic (idlePoll 1000 5) Fs.fillingSys).stateStartTime = 1000) ∧
    ((Fs.runCycleLogic (idlePoll 60000 0) Fs.holdHighSys).currentState = .STATE_DRAINING ∧
     (Fs.runCycleLogic (idlePoll 60000 0) Fs.holdHighSys).stateStartTime = 60000) ∧
    ((Fs.runCycleLogic (idlePoll 2000 60) Fs.drainingSys).currentState = .STATE_HOLD_LOW ∧
     (Fs.runCycleLogic (idlePoll 2000 60) Fs.drainingSys).stateStartTime = 2000) ∧
    ((Fs.runCycleLogic (idlePoll 60000 0) Fs.holdLowSysB).currentState = .STATE_FILLING ∧
     (Fs.runCycleLogic (idlePoll 60000 0) Fs.holdLowSysB).stateStartTime = 60000) ∧
    ((Ui.runCycleLogic (idlePoll 60000 0) Ui.holdHighSys).currentState = .STATE_DRAINING ∧
     (Ui.runCycleLogic (idlePoll 60000 0) Ui.holdHighSys).stateStartTime = 60000) ∧
    ((Ui.runCycleLogic (idlePoll 60000 0) Ui.holdLowSysB).currentState = .STATE_FILLING ∧
     (Ui.runCycleLogic (idlePoll 60000 0) Ui.holdLowSysB).stateStartTime = 60000) ∧
    ((Ui.runCycleLogic (idlePoll 1000 5) Ui.fillingSys).currentState = .STATE_HOLD_HIGH ∧
     (Ui.runCycleLogic (idlePoll 1000 5) Ui.fillingSys).stateStartTime =
       Ui.fillingSys.stateStartTime) ∧
    ((Ui.runCycleLogic (idlePoll 2000 60) Ui.drainingSys).currentState = .STATE_HOLD_LOW ∧
     (Ui.runCycleLogic (idlePoll 2000 60) Ui.drainingSys).stateStartTime =
       Ui.drainingSys.stateStartTime) :=
  ⟨claim_C2_amended.1 (idlePoll 1000 5) Fs.fillingSys (by decide) (by decide) (by decide),
   claim_C2_amended.2.1 (idlePoll 60000 0) Fs.holdHighSys (by decide) (by decide),
   claim_C2_amended.2.2.1 (idlePoll 2000 60) Fs.drainingSys (by decide) (by decide),
   claim_C2_amended.2.2.2.1 (idlePoll 60000 0) Fs.holdLowSysB (by decide) (by decide) (by decide),
   claim_C2_amended.2.2.2.2.1 (idlePoll 60000 0) Ui.holdHighSys (by decide) (by decide),
   claim_C2_amended.2.2.2.2.2.1 (idlePoll 60000 0) Ui.holdLowSysB (by decide) (by decide) (by decide),
   claim_C2_amended.2.2.2.2.2.2.1 (idlePoll 1000 5) Ui.fillingSys (by decide) (by decide) (by decide),
   claim_C2_amended.2.2.2.2.2.2.2 (idlePoll 2000 60) Ui.drainingSys (by decide) (by decide)⟩

/-!
## Claim C3 — hold-low expiry, cycle counting and finishing
-/

/-- C3: when the hold-low timer expires while running,
`completedCycles` increments by exactly one; if it has then reached
`setMaxCycles` the system stops (`isRunning = false`), sets
`isFinished = true` and forces both relays OFF, otherwise it transitions
back to Filling with a fresh phase timestamp; and once stopped, a loop
iteration without a start press-edge advances nothing (phase, cycle
count and finished flag are untouched).  Both variants. -/
theorem claim_C3 :
    (∀ (i : Inputs) (s : Ui.Sys), s.currentState = .STATE_HOLD_LOW →
        ((i.now - s.stateStartTime : Nat) : Int) ≥ Ui.durationMillis s.settings →
        (Ui.runCycleLogic i s).completedCycles = s.completedCycles + 1 ∧
        (s.completedCycles + 1 ≥ s.settings.setMaxCycles →
          (Ui.runCycleLogic i s).isRunning = false ∧
          (Ui.runCycleLogic i s).isFinished = true ∧
          (Ui.runCycleLogic i s).relayFill = false ∧
          (Ui.runCycleLogic i s).relayDrain = false) ∧
        (s.completedCycles + 1 < s.settings.setMaxCycles →
          (Ui.runCycleLogic i s).currentState = .STATE_FILLING ∧
          (Ui.runCycleLogic i s).stateStartTime = i.now ∧
          (Ui.runCycleLogic i s).isRunning = s.isRunning ∧
          (Ui.runCycleLogic i s).isFinished = s.isFinished)) ∧
    (∀ (i : Inputs) (s : Fs.Sys), s.currentState = .STATE_HOLD_LOW →
        ((i.now - s.stateStartTime : Nat) : Int) ≥ Fs.durationMillis s.settings →
        (Fs.runCycleLogic i s).completedCycles = s.completedCycles + 1 ∧
        (s.completedCycles + 1 ≥ s.settings.setMaxCycles →
          (Fs.runCycleLogic i s).isRunning = false ∧
          (Fs.runCycleLogic i s).isFinished = true ∧
          (Fs.runCycleLogic i s).relayFill = false ∧
          (Fs.runCycleLogic i s).relayDrain = false) ∧
        (s.completedCycles + 1 < s.settings.setMaxCycles →
          (Fs.runCycleLogic i s).currentState = .STATE_FILLING ∧
          (Fs.runCycleLogic i s).stateStartTime = i.now ∧
          (Fs.runCycleLogic i s).isRunning = s.isRunning ∧
          (Fs.runCycleLogic i s).isFinished = s.isFinished)) ∧
    (∀ (i : Inputs) (s : Ui.Sys), s.isRunning = false →
        ¬(i.rStart = PIN_LOW ∧ s.lastBtnStart = PIN_HIGH) →
        (Ui.loopStep i s).isRunning = false ∧
        (Ui.loopStep i s).currentState = s.currentState ∧
        (Ui.loopStep i s).completedCycles = s.completedCycles ∧
        (Ui.loopStep i s).isFinished = s.isFinished) ∧
    (∀ (i : Inputs) (s : Fs.Sys), s.isRunning = false →
        ¬(i.rStart = PIN_LOW ∧ s.lastBtnStart = PIN_HIGH) →
        (Fs.loopStep i s).isRunning = false ∧
        (Fs.loopStep i s).currentState = s.currentState ∧
        (Fs.loopStep i s).completedCycles = s.completedCycles ∧
        (Fs.loopStep i s).isFinished = s.isFinished) := by
  refine ⟨?_, ?_, ?_, ?_⟩
  · intro i s h1 h2
    unfold Ui.runCycleLogic Ui.stopSystem
    dsimp only
    rw [h1]
    dsimp only
    rw [if_pos h2]
    by_cases hm : s.completedCycles + 1 ≥ s.settings.setMaxCycles
    · rw [if_pos hm]
      exact ⟨rfl, fun _ => ⟨rfl, rfl, rfl, rfl⟩, fun hlt => absurd hm (by omega)⟩
    · rw [if_neg hm]
      exact ⟨rfl, fun hge => absurd hge hm, fun _ => ⟨rfl, rfl, rfl, rfl⟩⟩
  · intro i s h1 h2
    unfold Fs.runCycleLogic Fs.stopSystem
    dsimp only
    rw [h1]
    dsimp only
    rw [if_pos h2]
    by_cases hm : s.completedCycles + 1 ≥ s.settings.setMaxCycles
    · rw [if_pos hm]
      exact ⟨rfl, fun _ => ⟨rfl, rfl, rfl, rfl⟩, fun hlt => absurd hm (by omega)⟩
    · rw [if_neg hm]
      exact ⟨rfl, fun hge => absurd hge hm, fun _ => ⟨rfl, rfl, rfl, rfl⟩⟩
  · intro i s h0 hne
    exact Ui.loopStep_noStart_ui i s h0 hne
  · intro i s h0 hne
    exact Fs.loopStep_noStart_fs i s h0 hne

/-- C3, witness: the hold-low expiry at 60 s in the concrete 1-minute
single-cycle states finishes the run, and an idle iteration with no
button pressed leaves the initial state's phase alone. -/
theorem claim_C3_witness :
    ((Ui.runCycleLogic (idlePoll 60000 0) Ui.holdLowSysA).completedCycles =
        Ui.holdLowSysA.completedCycles + 1 ∧
     (Ui.runCycleLogic (idlePoll 60000 0) Ui.holdLowSysA).isRunning = false ∧
     (Ui.runCycleLogic (idlePoll 60000 0) Ui.holdLowSysA).isFinished = true) ∧
    ((Fs.runCycleLogic (idlePoll 60000 0) Fs.holdLowSysA).completedCycles =
        Fs.holdLowSysA.completedCycles + 1) ∧
    ((Ui.loopStep (idlePoll 7 0) Ui.initialSys).isRunning = false ∧
     (Ui.loopStep (idlePoll 7 0) Ui.initialSys).currentState =
        Ui.initialSys.currentState) ∧
    (Fs.loopStep (idlePoll 7 0) Fs.initialSys).isRunning = false := by
  refine ⟨?_, ?_, ?_, ?_⟩
  · have h := claim_C3.1 (idlePoll 60000 0) Ui.holdLowSysA (by decide) (by decide)
    exact ⟨h.1, (h.2.1 (by decide)).1, (h.2.1 (by decide)).2.1⟩
  · exact (claim_C3.2.1 (idlePoll 60000 0) Fs.holdLowSysA (by decide) (by decide)).1
  · have h := claim_C3.2.2.1 (idlePoll 7 0) Ui.initialSys (by decide) (by decide)
    exact ⟨h.1, h.2.1⟩
  · exact (claim_C3.2.2.2 (idlePoll 7 0) Fs.initialSys (by decide) (by decide)).1

/-!
## Claim C4 — stop command forces both actuators OFF
-/

/-- C4: from any running state, a press-edge of the start/stop button
clears `isRunning` and commands both relays OFF (and `stopSystem` itself
does so from any state whatsoever).  Both variants. -/
theorem claim_C4 :
    (∀ (i : Inputs) (s : Ui.Sys), s.isRunning = true →
        i.rStart = PIN_LOW → s.lastBtnStart = PIN_HIGH →
        (Ui.handleButtons i s).isRunning = false ∧
        (Ui.handleButtons i s).relayFill = false ∧
        (Ui.handleButtons i s).relayDrain = false) ∧
    (∀ s : Ui.Sys, (Ui.stopSystem s).isRunning = false ∧
        (Ui.stopSystem s).relayFill = false ∧
        (Ui.stopSystem s).relayDrain = false) ∧
    (∀ (i : Inputs) (s : Fs.Sys), s.isRunning = true →
        i.rStart = PIN_LOW → s.lastBtnStart = PIN_HIGH →
        (Fs.handleButtons i s).isRunning = false ∧
        (Fs.handleButtons i s).relayFill = false ∧
        (Fs.handleButtons i s).relayDrain = false) ∧
    (∀ s : Fs.Sys, (Fs.stopSystem s).isRunning = false ∧
        (Fs.stopSystem s).relayFill = false ∧
        (Fs.stopSystem s).relayDrain = false) :=
  ⟨fun i s hr h1 h2 => Ui.handleButtons_stop_ui i s hr h1 h2,
   fun _ => ⟨rfl, rfl, rfl⟩,
   fun i s hr h1 h2 => Fs.handleButtons_stop_fs i s hr h1 h2,
   fun _ => ⟨rfl, rfl, rfl⟩⟩

/-- C4, witness: stopping the concrete running filling states (fill
relay possibly energized) by a start/stop press-edge at t = 99. -/
theorem claim_C4_witness :
    ((Ui.handleButtons (pressStart 99) Ui.fillingSys).isRunning = false ∧
     (Ui.handleButtons (pressStart 99) Ui.fillingSys).relayFill = false ∧
     (Ui.handleButtons (pressStart 99) Ui.fillingSys).relayDrain = false) ∧
    ((Fs.handleButtons (pressStart 99) Fs.fillingSys).isRunning = false ∧
     (Fs.handleButtons (pressStart 99) Fs.fillingSys).relayFill = false ∧
     (Fs.handleButtons (pressStart 99) Fs.fillingSys).relayDrain = false) ∧
    (Ui.stopSystem Ui.fillingSys).isRunning = false ∧
    (Fs.stopSystem Fs.fillingSys).isRunning = false :=
  ⟨claim_C4.1 (pressStart 99) Ui.fillingSys (by decide) (by decide) (by decide),
   claim_C4.2.2.1 (pressStart 99) Fs.fillingSys (by decide) (by decide) (by decide),
   (claim_C4.2.1 Ui.fillingSys).1,
   (claim_C4.2.2.2 Fs.fillingSys).1⟩

/-!
## Claim C5 — behavior of the start/stop button in the finished state
-/

/-- C5, counterexample: `cexDone` is a reachable finished idle state
(the LCD is showing the "Done / Press Stop->Reset" view); the next
press-edge of the start/stop button does clear `isFinished`, but it
does NOT return the controller to the idle menu — it starts a brand new
run (`isRunning` becomes `true`). -/
theorem claim_C5_cex :
    Ui.Reachable Ui.cexDone ∧
    Ui.cexDone.isFinished = true ∧
    Ui.cexDone.isRunning = false ∧
    Ui.cexDone.lastBtnStart = PIN_HIGH ∧
    Ui.displayMenu Ui.cexDone = View.finishedView ∧
    (Ui.handleButtons (pressStart 7320100) Ui.cexDone).isFinished = false ∧
    (Ui.handleButtons (pressStart 7320100) Ui.cexDone).isRunning = true := by
  refine ⟨?_, by decide, by decide, by decide, by decide, by decide, by decide⟩
  exact Ui.reachable_runLoop_ui _ Ui.Reachable.init

/-- C5 (amended): while `isFinished` holds, the idle display shows the
terminal "completed" view instead of any settings page; the next
press-edge of the start/stop button clears `isFinished` and resets the
runtime state, but it starts a new run (`isRunning = true`, phase
Filling) instead of returning to the idle/configurable menu view. -/
theorem claim_C5_amended :
    (∀ (i : Inputs) (s : Ui.Sys), s.isFinished = true → s.isRunning = false →
        i.rStart = PIN_LOW → s.lastBtnStart = PIN_HIGH →
        (Ui.handleButtons i s).isFinished = false ∧
        (Ui.handleButtons i s).isRunning = true ∧
        (Ui.handleButtons i s).completedCycles = 0 ∧
        (Ui.handleButtons i s).currentState = .STATE_FILLING ∧
        (Ui.handleButtons i s).stateStartTime = i.now) ∧
    (∀ s : Ui.Sys, s.isFinished = true → Ui.displayMenu s = View.finishedView) ∧
    (∀ s : Ui.Sys, s.isFinished = false →
        Ui.displayMenu s = View.settingsPage s.menuPage) := by
  refine ⟨?_, ?_, ?_⟩
  · intro i s hf h0 h1 h2
    rw [Ui.handleButtons_start_ui i s h0 h1 h2]
    simp [Ui.startSystem]
  · intro s hf
    unfold Ui.displayMenu
    rw [if_pos hf]
  · intro s hf
    unfold Ui.displayMenu
    rw [if_neg (by simp [hf])]

/-- C5 amended, witness: instantiation at the concrete finished idle
state, pressed at t = 42. -/
theorem claim_C5_amended_witness :
    ((Ui.handleButtons (pressStart 42) Ui.finishedSys).isFinished = false ∧
     (Ui.handleButtons (pressStart 42) Ui.finishedSys).isRunning = true ∧
     (Ui.handleButtons (pressStart 42) Ui.finishedSys).completedCycles = 0 ∧
     (Ui.handleButtons (pressStart 42) Ui.finishedSys).currentState = .STATE_FILLING ∧
     (Ui.handleButtons (pressStart 42) Ui.finishedSys).stateStartTime = 42) ∧
    Ui.displayMenu Ui.finishedSys = View.finishedView ∧
    Ui.displayMenu Ui.initialSys = View.settingsPage Ui.initialSys.menuPage :=
  ⟨claim_C5_amended.1 (pressStart 42) Ui.finishedSys (by decide) (by decide)
      (by decide) (by decide),
   claim_C5_amended.2.1 Ui.finishedSys (by decide),
   claim_C5_amended.2.2 Ui.initialSys (by decide)⟩

/-!
## Claim C6 — initialization on every start command
-/

/-- C6: from any reachable idle state, a press-edge of the start/stop
button initializes the run: phase `Filling`, `stateStartTime = now`,
`completedCycles = 0`, `isFinished = false`, `isRunning = true` — and
both relays are at the known-OFF baseline at that moment (they were
commanded OFF by `setup()`/`stopSystem` and stay OFF until the first
Filling-ON command of `runCycleLogic`).  Both variants. -/
theorem claim_C6 :
    (∀ (i : Inputs) (s : Ui.Sys), Ui.Reachable s → s.isRunning = false →
        i.rStart = PIN_LOW → s.lastBtnStart = PIN_HIGH →
        (Ui.handleButtons i s).isRunning = true ∧
        (Ui.handleButtons i s).isFinished = false ∧
        (Ui.handleButtons i s).completedCycles = 0 ∧
        (Ui.handleButtons i s).currentState = .STATE_FILLING ∧
        (Ui.handleButtons i s).stateStartTime = i.now ∧
        (Ui.handleButtons i s).relayFill = false ∧
        (Ui.handleButtons i s).relayDrain = false) ∧
    (∀ (i : Inputs) (s : Fs.Sys), Fs.Reachable s → s.isRunning = false →
        i.rStart = PIN_LOW → s.lastBtnStart = PIN_HIGH →
        (Fs.handleButtons i s).isRunning = true ∧
        (Fs.handleButtons i s).isFinished = false ∧
        (Fs.handleButtons i s).completedCycles = 0 ∧
        (Fs.handleButtons i s).currentState = .STATE_FILLING ∧
        (Fs.handleButtons i s).stateStartTime = i.now ∧
        (Fs.handleButtons i s).relayFill = false ∧
        (Fs.handleButtons i s).relayDrain = false) := by
  constructor
  · intro i s hreach h0 h1 h2
    obtain ⟨hidle, _, _⟩ := Ui.reachable_inv_ui hreach
    obtain ⟨hf, hd⟩ := hidle h0
    rw [Ui.handleButtons_start_ui i s h0 h1 h2]
    simp [Ui.startSystem, hf, hd]
  · intro i s hreach h0 h1 h2
    obtain ⟨hidle, _, _⟩ := Fs.reachable_inv_fs hreach
    obtain ⟨hf, hd⟩ := hidle h0
    rw [Fs.handleButtons_start_fs i s h0 h1 h2]
    simp [Fs.startSystem, hf, hd]

/-- C6, witness: starting from the power-up state at t = 5. -/
theorem claim_C6_witness :
    ((Ui.handleButtons (pressStart 5) Ui.initialSys).isRunning = true ∧
     (Ui.handleButtons (pressStart 5) Ui.initialSys).isFinished = false ∧
     (Ui.handleButtons (pressStart 5) Ui.initialSys).completedCycles = 0 ∧
     (Ui.handleButtons (pressStart 5) Ui.initialSys).currentState = .STATE_FILLING ∧
     (Ui.handleButtons (pressStart 5) Ui.initialSys).stateStartTime = 5 ∧
     (Ui.handleButtons (pressStart 5) Ui.initialSys).relayFill = false ∧
     (Ui.handleButtons (pressStart 5) Ui.initialSys).relayDrain = false) ∧
    ((Fs.handleButtons (pressStart 5) Fs.initialSys).isRunning = true ∧
     (Fs.handleButtons (pressStart 5) Fs.initialSys).isFinished = false ∧
     (Fs.handleButtons (pressStart 5) Fs.initialSys).completedCycles = 0 ∧
     (Fs.handleButtons (pressStart 5) Fs.initialSys).currentState = .STATE_FILLING ∧
     (Fs.handleButtons (pressStart 5) Fs.initialSys).stateStartTime = 5 ∧
     (Fs.handleButtons (pressStart 5) Fs.initialSys).relayFill = false ∧
     (Fs.handleButtons (pressStart 5) Fs.initialSys).relayDrain = false) :=
  ⟨claim_C6.1 (pressStart 5) Ui.initialSys Ui.Reachable.init (by decide)
      (by decide) (by decide),
   claim_C6.2 (pressStart 5) Fs.initialSys Fs.Reachable.init (by decide)
      (by decide) (by decide)⟩

/-!
## Claim C10 — the two relays are never both energized
-/

/-- C10: in every reachable state of either variant the fill relay and
the drain relay are never both commanded ON; indeed an energized fill
relay occurs only in `STATE_FILLING` and an energized drain relay only
in `STATE_DRAINING` (so neither is ON in the hold states), and
`setup()` (the initial state) and `stopSystem` command both OFF. -/
theorem claim_C10 :
    (∀ s : Ui.Sys, Ui.Reachable s →
        ¬(s.relayFill = true ∧ s.relayDrain = true) ∧
        (s.relayFill = true → s.currentState = .STATE_FILLING) ∧
        (s.relayDrain = true → s.currentState = .STATE_DRAINING)) ∧
    (∀ s : Fs.Sys, Fs.Reachable s →
        ¬(s.relayFill = true ∧ s.relayDrain = true) ∧
        (s.relayFill = true → s.currentState = .STATE_FILLING) ∧
        (s.relayDrain = true → s.currentState = .STATE_DRAINING)) ∧
    (Ui.initialSys.relayFill = false ∧ Ui.initialSys.relayDrain = false) ∧
    (Fs.initialSys.relayFill = false ∧ Fs.initialSys.relayDrain = false) ∧
    (∀ s : Ui.Sys, (Ui.stopSystem s).relayFill = false ∧
        (Ui.stopSystem s).relayDrain = false) ∧
    (∀ s : Fs.Sys, (Fs.stopSystem s).relayFill = false ∧
        (Fs.stopSystem s).relayDrain = false) := by
  refine ⟨?_, ?_, ⟨rfl, rfl⟩, ⟨rfl, rfl⟩, fun _ => ⟨rfl, rfl⟩, fun _ => ⟨rfl, rfl⟩⟩
  · intro s hr
    obtain ⟨_, h2, h3⟩ := Ui.reachable_inv_ui hr
    refine ⟨?_, h2, h3⟩
    rintro ⟨hf, hd⟩
    have hc := (h2 hf).symm.trans (h3 hd)
    exact SystemState.noConfusion hc
  · intro s hr
    obtain ⟨_, h2, h3⟩ := Fs.reachable_inv_fs hr
    refine ⟨?_, h2, h3⟩
    rintro ⟨hf, hd⟩
    have hc := (h2 hf).symm.trans (h3 hd)
    exact SystemState.noConfusion hc

/-- C10, witness: instantiation at each variant's power-up state. -/
theorem claim_C10_witness :
    ¬(Ui.initialSys.relayFill = true ∧ Ui.initialSys.relayDrain = true) ∧
    ¬(Fs.initialSys.relayFill = true ∧ Fs.initialSys.relayDrain = true) :=
  ⟨(claim_C10.1 Ui.initialSys Ui.Reachable.init).1,
   (claim_C10.2.1 Fs.initialSys Fs.Reachable.init).1⟩

/-!
## Claim C9 — the long-press / auto-repeat protocol
-/

theorem goodBtn_pollStep (p : Poll) (s : BtnState) (es : List FireEvent)
    (h : GoodBtn s es) : GoodBtn (pollStep p s es).1 (pollStep p s es).2 := by
  obtain ⟨g1, g2, g3⟩ := h
  unfold pollStep
  by_cases hl : p.level = PIN_LOW
  · rw [if_pos hl]
    by_cases hup : s.lastBtnUp = PIN_HIGH
    · rw [if_pos hup]
      dsimp only
      refine ⟨?_, ?_, ?_⟩
      · intro _
        simp [firstEdgeTime]
      · intro e es2 heq
        simp only [List.cons.injEq] at heq
        rw [← heq.1]
      · intro newer e older heq hk
        cases newer with
        | nil =>
          simp only [List.nil_append, List.cons.injEq] at heq
          rw [← heq.1] at hk
          exact FireKind.noConfusion hk
        | cons a newer2 =>
          simp only [List.cons_append, List.cons.injEq] at heq
          exact g3 newer2 e older heq.2 hk
    · rw [if_neg hup]
      have hlow : s.lastBtnUp = PIN_LOW := by
        revert hup; unfold PIN_HIGH PIN_LOW; cases s.lastBtnUp <;> simp
      have hedge := g1 hlow
      by_cases hg : p.now - s.btnPressStartTime > LONG_PRESS_DELAY ∧
          p.now - s.lastRepeatTime > REPEAT_RATE
      · rw [if_pos hg]
        obtain ⟨hg1, hg2⟩ := hg
        dsimp only
        refine ⟨?_, ?_, ?_⟩
        · intro _
          simpa [firstEdgeTime] using hedge
        · intro e es2 heq
          simp only [List.cons.injEq] at heq
          rw [← heq.1]
        · intro newer e older heq hk
          cases newer with
          | nil =>
            simp only [List.nil_append, List.cons.injEq] at heq
            obtain ⟨he, holder⟩ := heq
            subst holder
            rw [← he]
            dsimp only
            constructor
            · exact ⟨s.btnPressStartTime, hedge, by omega⟩
            · cases es with
              | nil => simp [firstEdgeTime] at hedge
              | cons hd tl =>
                have hrep := g2 hd tl rfl
                exact ⟨hd, tl, rfl, by omega⟩
          | cons a newer2 =>
            simp only [List.cons_append, List.cons.injEq] at heq
            exact g3 newer2 e older heq.2 hk
      · rw [if_neg hg]
        dsimp only
        exact ⟨fun _ => hedge, g2, g3⟩
  · rw [if_neg hl]
    dsimp only
    refine ⟨?_, g2, g3⟩
    intro hc
    exact absurd hc hl

theorem goodBtn_runPolls (ps : List Poll) (s : BtnState) (es : List FireEvent)
    (h : GoodBtn s es) : GoodBtn (runPolls s es ps).1 (runPolls s es ps).2 := by
  induction ps generalizing s es with
  | nil => exact h
  | cons p ps ih => exact ih _ _ (goodBtn_pollStep p s es h)

theorem goodBtn_init : GoodBtn initBtn [] := by
  refine ⟨?_, ?_, ?_⟩
  · intro hc
    exact absurd hc (by decide)
  · intro e es2 heq
    exact List.noConfusion heq
  · intro newer e older heq _
    cases newer <;> simp at heq

/-- C9: for the adjustment-button submachine, (1) a poll showing the
button pressed while the stored previous level is HIGH (a press-edge
with no prior held state) fires exactly one adjustment, of the
press-edge kind, never a repeat; (2) a poll showing the button released
fires nothing; (3) over any trace of polls from the power-up button
state, every repeat fire comes at least `LONG_PRESS_DELAY` (500 ms)
after the most recent press-edge fire — any intervening release would
have made the next press a fresh edge — and at least `REPEAT_RATE`
(100 ms) after the immediately preceding fire. -/
theorem claim_C9 :
    (∀ (p : Poll) (s : BtnState) (es : List FireEvent),
        p.level = PIN_LOW → s.lastBtnUp = PIN_HIGH →
        (pollStep p s es).2 = { time := p.now, kind := .edgeFire } :: es) ∧
    (∀ (p : Poll) (s : BtnState) (es : List FireEvent),
        p.level = PIN_HIGH → (pollStep p s es).2 = es) ∧
    (∀ (ps : List Poll) (newer : List FireEvent) (e : FireEvent)
        (older : List FireEvent),
        (runPolls initBtn [] ps).2 = newer ++ e :: older →
        e.kind = .repeatFire →
        (∃ tE, firstEdgeTime older = some tE ∧
            tE + LONG_PRESS_DELAY + 1 ≤ e.time) ∧
        (∃ prev older2, older = prev :: older2 ∧
            prev.time + REPEAT_RATE + 1 ≤ e.time)) := by
  refine ⟨?_, ?_, ?_⟩
  · intro p s es hp hs
    unfold pollStep
    rw [if_pos hp, if_pos hs]
  · intro p s es hp
    unfold pollStep
    rw [if_neg (by rw [hp]; decide)]
  · intro ps newer e older heq hk
    exact (goodBtn_runPolls ps initBtn [] goodBtn_init).2.2 newer e older heq hk

/-- C9, witness: a press-edge at t = 0 fires exactly one edge
adjustment; a released poll fires nothing; in the trace
"press at 0, still held at 501" the second poll fires a repeat, 501 ms
after its press-edge and after the previous fire. -/
theorem claim_C9_witness :
    (pollStep ⟨0, PIN_LOW⟩ initBtn []).2 = [⟨0, .edgeFire⟩] ∧
    (pollStep ⟨10, PIN_HIGH⟩ initBtn []).2 = [] ∧
    ((∃ tE, firstEdgeTime [⟨0, .edgeFire⟩] = some tE ∧
        tE + LONG_PRESS_DELAY + 1 ≤ 501) ∧
     (∃ prev older2, [(⟨0, .edgeFire⟩ : FireEvent)] = prev :: older2 ∧
        prev.time + REPEAT_RATE + 1 ≤ 501)) :=
  ⟨claim_C9.1 ⟨0, PIN_LOW⟩ initBtn [] rfl rfl,
   claim_C9.2.1 ⟨10, PIN_HIGH⟩ initBtn [] rfl,
   claim_C9.2.2 [⟨0, PIN_LOW⟩, ⟨501, PIN_LOW⟩] [] ⟨501, .repeatFire⟩
     [⟨0, .edgeFire⟩] (by decide) rfl⟩
